import Mathlib

/-!
Verification of the resume schema-normalization and rendering pipeline.

The development shallowly embeds the two source modules:
* `agents/resume_agent.py` — `ResumeAgent._validate_and_clean`, the schema
  normalizer that coerces an untrusted JSON-like mapping into the fixed
  Resume shape;
* `services/html_pdf_generator.py` — `HTMLPDFGenerator`: the Jinja template
  `RESUME_TEMPLATE`, `generate_pdf`, `generate_pdf_bytes`,
  `validate_resume_data` and `generate_html_preview`.

JSON-like Python values are modelled by the inductive type `PyVal`
(dictionaries as insertion-ordered association lists with string keys).
Fallible Python operations (attribute errors, `int()` conversion errors,
iteration over non-iterables) are modelled in the `Except String` monad.
-/

set_option autoImplicit false


/-- A Python value as it can occur in the JSON-like data handled by the
normalizer: `None`, booleans, integers, strings, lists and string-keyed
dictionaries (insertion order preserved, as in Python 3.7+). -/
inductive PyVal where
  | none
  | bool (b : Bool)
  | int (n : Int)
  | str (s : String)
  | list (xs : List PyVal)
  | dict (kvs : List (String × PyVal))

/-- The apostrophe character, used by Python `repr` for strings. -/
def pyQuote : String := String.singleton (Char.ofNat 39)

/-- Python `repr` of a value (used by `str()` on containers). -/
def pyRepr : PyVal → String
  | .none => "None"
  | .bool b => if b then "True" else "False"
  | .int n => toString n
  | .str s => pyQuote ++ s ++ pyQuote
  | .list xs => "[" ++ String.intercalate (", ") (xs.attach.map (fun a => pyRepr a.1)) ++ "]"
  | .dict kvs =>
      "\x7b" ++
        String.intercalate (", ")
          (kvs.attach.map (fun a => pyQuote ++ a.1.1 ++ pyQuote ++ ": " ++ pyRepr a.1.2)) ++
      "\x7d"
decreasing_by
  · have h := List.sizeOf_lt_of_mem a.2
    simp only [PyVal.list.sizeOf_spec]
    omega
  · have h := List.sizeOf_lt_of_mem a.2
    have h2 : sizeOf a.1.2 < sizeOf a.1 := by
      obtain ⟨⟨k, v⟩, hm⟩ := a
      simp only [Prod.mk.sizeOf_spec]
      omega
    simp only [PyVal.dict.sizeOf_spec]
    omega

/-- Python `str()` of a value: strings unchanged, scalars printed, and
containers shown via `repr`. -/
def pyStr : PyVal → String
  | .none => "None"
  | .bool b => if b then "True" else "False"
  | .int n => toString n
  | .str s => s
  | .list xs => pyRepr (.list xs)
  | .dict kvs => pyRepr (.dict kvs)

/-- Python `d.get(key, default)`: returns the stored value when the key is
present (even when that value is `None`), the default when absent, and
raises `AttributeError` when the receiver is not a dictionary. -/
def dictGet : PyVal → String → PyVal → Except String PyVal
  | .dict kvs, k, d => .ok ((kvs.lookup k).getD d)
  | _, _, _ => .error ("AttributeError")

/-- Value of a nonempty run of decimal digits, `Except.error` otherwise. -/
def digitsVal : List Char → Except String Int
  | [] => .error ("ValueError")
  | cs =>
    if cs.all Char.isDigit then
      .ok (cs.foldl (fun acc c => acc * 10 + (c.toNat - 48 : Int)) 0)
    else
      .error ("ValueError")

/-- Characters of a string with surrounding whitespace stripped, as
`int()` does before parsing. -/
def stripWs (s : String) : List Char :=
  ((s.data.dropWhile Char.isWhitespace).reverse.dropWhile Char.isWhitespace).reverse

/-- Python `int(s)` on a string: optional surrounding whitespace, optional
sign, then decimal digits; anything else raises `ValueError`. -/
def pyIntOfStr (s : String) : Except String Int :=
  match stripWs s with
  | '-' :: rest => (digitsVal rest).map Int.neg
  | '+' :: rest => digitsVal rest
  | cs => digitsVal cs

/-- Python `int(v)`: identity on integers, `True`/`False` become `1`/`0`,
strings are parsed, everything else raises `TypeError`. -/
def pyInt : PyVal → Except String Int
  | .int n => .ok n
  | .bool b => .ok (if b then 1 else 0)
  | .str s => pyIntOfStr s
  | _ => .error ("TypeError")

/-- Python iteration (`for x in v`): lists yield their elements, strings
their characters, dictionaries their keys; other values raise `TypeError`. -/
def pyIterate : PyVal → Except String (List PyVal)
  | .list xs => .ok xs
  | .str s => .ok (s.data.map (fun c => .str (String.singleton c)))
  | .dict kvs => .ok (kvs.map (fun kv => .str kv.1))
  | _ => .error ("TypeError")

namespace ResumeAgent

/-- The `header` entry built by `_validate_and_clean`:
`data.get("header", ...).get("name", user_profile.get("name", ""))` and
`data.get("header", ...).get("title", "")`, in Python evaluation order. -/
def cleanHeader (data user_profile : PyVal) : Except String PyVal := do
  let hdr1 ← dictGet data ("header") (.dict [])
  let pname ← dictGet user_profile ("name") (.str "")
  let name ← dictGet hdr1 ("name") pname
  let hdr2 ← dictGet data ("header") (.dict [])
  let title ← dictGet hdr2 ("title") (.str "")
  .ok (.dict [("name", name), ("title", title)])

/-- One `contact` row:
`data.get("contact", ...).get(key, user_profile.get(profileKey, ""))`. -/
def contactField (data user_profile : PyVal) (key profileKey : String) :
    Except String PyVal := do
  let c ← dictGet data ("contact") (.dict [])
  let pv ← dictGet user_profile profileKey (.str "")
  dictGet c key pv

/-- The `contact` entry built by `_validate_and_clean`; note that the
`address` row falls back to the profile key `location`. -/
def cleanContact (data user_profile : PyVal) : Except String PyVal := do
  let phone ← contactField data user_profile ("phone") ("phone")
  let email ← contactField data user_profile ("email") ("email")
  let address ← contactField data user_profile ("address") ("location")
  let website ← contactField data user_profile ("website") ("website")
  let linkedin ← contactField data user_profile ("linkedin") ("linkedin")
  .ok (.dict [("phone", phone), ("email", email), ("address", address),
              ("website", website), ("linkedin", linkedin)])

/-- The skills-cleaning loop of `_validate_and_clean`: structured entries
keep `name` (default the empty string) and `int(...)`-coerce `level`
(default `50`);
bare strings become `{name: s, level: 70}`; other entries are skipped.
The `int()` coercion can raise, which aborts the whole cleaning. -/
def cleanSkills : List PyVal → Except String (List PyVal)
  | [] => .ok []
  | e :: rest =>
    match e with
    | .dict kvs => do
      let name := (kvs.lookup ("name")).getD (.str "")
      let lvl ← pyInt ((kvs.lookup ("level")).getD (.int 50))
      let tail ← cleanSkills rest
      .ok (.dict [("name", name), ("level", .int lvl)] :: tail)
    | .str s => do
      let tail ← cleanSkills rest
      .ok (.dict [("name", .str s), ("level", .int 70)] :: tail)
    | _ => cleanSkills rest

/-- The projects-cleaning loop: structured entries keep
`title` (alias `name`), `tech_stack` (alias `technologies`, default `[]`)
and `points` (alias `highlights`, default `[]`); non-dict entries are
skipped. No operation here can raise. -/
def cleanProjects : List PyVal → List PyVal
  | [] => []
  | e :: rest =>
    match e with
    | .dict kvs =>
      .dict [("title", (kvs.lookup ("title")).getD ((kvs.lookup ("name")).getD (.str ""))),
             ("tech_stack", (kvs.lookup ("tech_stack")).getD
                ((kvs.lookup ("technologies")).getD (.list []))),
             ("points", (kvs.lookup ("points")).getD
                ((kvs.lookup ("highlights")).getD (.list [])))] :: cleanProjects rest
    | _ => cleanProjects rest

/-- The experience-cleaning loop: `role` (alias `title`), `company`,
`location`, `duration` (each defaulting to the empty string) and `points`
(alias `achievements`,
default `[]`); non-dict entries are skipped. -/
def cleanExperience : List PyVal → List PyVal
  | [] => []
  | e :: rest =>
    match e with
    | .dict kvs =>
      .dict [("role", (kvs.lookup ("role")).getD ((kvs.lookup ("title")).getD (.str ""))),
             ("company", (kvs.lookup ("company")).getD (.str "")),
             ("location", (kvs.lookup ("location")).getD (.str "")),
             ("duration", (kvs.lookup ("duration")).getD (.str "")),
             ("points", (kvs.lookup ("points")).getD
                ((kvs.lookup ("achievements")).getD (.list [])))] :: cleanExperience rest
    | _ => cleanExperience rest

/-- The education-cleaning loop: `degree`, `institution`, `details`
(defaulting to the empty string) and `year` coerced with `str(...)`;
there is no alias
lookup here — in particular no `gpa` fallback for `details`. -/
def cleanEducation : List PyVal → List PyVal
  | [] => []
  | e :: rest =>
    match e with
    | .dict kvs =>
      .dict [("degree", (kvs.lookup ("degree")).getD (.str "")),
             ("institution", (kvs.lookup ("institution")).getD (.str "")),
             ("year", .str (pyStr ((kvs.lookup ("year")).getD (.str "")))),
             ("details", (kvs.lookup ("details")).getD (.str ""))] :: cleanEducation rest
    | _ => cleanEducation rest

/-- Evaluation of `data.get(key, [])` followed by iteration, as each
section loop does. -/
def sectionEntries (data : PyVal) (key : String) : Except String (List PyVal) := do
  let raw ← dictGet data key (.list [])
  pyIterate raw

/-- Embedding of `ResumeAgent._validate_and_clean(data, user_profile)`: builds the
canonical seven-field document, evaluating fields in Python order
(header, contact, summary, then the skills / projects / experience /
education loops). -/
def validate_and_clean (data user_profile : PyVal) : Except String PyVal := do
  let header ← cleanHeader data user_profile
  let contact ← cleanContact data user_profile
  let summary ← dictGet data ("summary") (.str "")
  let skillEntries ← sectionEntries data ("skills")
  let skills ← cleanSkills skillEntries
  let projEntries ← sectionEntries data ("projects")
  let expEntries ← sectionEntries data ("experience")
  let eduEntries ← sectionEntries data ("education")
  .ok (.dict [("header", header), ("contact", contact), ("summary", summary),
              ("skills", .list skills),
              ("projects", .list (cleanProjects projEntries)),
              ("experience", .list (cleanExperience expEntries)),
              ("education", .list (cleanEducation eduEntries))])

/-- Shape of a cleaned skill entry: `{name: <any>, level: <int>}`. -/
def skillShapeB : PyVal → Bool
  | .dict [("name", n), ("level", .int l)] => true
  | _ => false

/-- Shape of a cleaned project entry: the three canonical keys (values keep
their raw types). -/
def projShapeB : PyVal → Bool
  | .dict [("title", t), ("tech_stack", ts), ("points", ps)] => true
  | _ => false

/-- Shape of a cleaned experience entry: the five canonical keys. -/
def expShapeB : PyVal → Bool
  | .dict [("role", r), ("company", c), ("location", l), ("duration", d), ("points", ps)] => true
  | _ => false

/-- Shape of a cleaned education entry: the four canonical keys, with
`year` always a string. -/
def eduShapeB : PyVal → Bool
  | .dict [("degree", d), ("institution", i), ("year", .str y), ("details", dt)] => true
  | _ => false

/-- Shape of a cleaned `header`: the two canonical keys, any values. -/
def headerShapeB : PyVal → Bool
  | .dict [("name", n), ("title", t)] => true
  | _ => false

/-- Shape of a cleaned `contact`: the five canonical keys, any values. -/
def contactShapeB : PyVal → Bool
  | .dict [("phone", p), ("email", e), ("address", a), ("website", w), ("linkedin", li)] => true
  | _ => false

/-- Conformance of a cleaned document: exactly the seven canonical
top-level keys in order; `header` and `contact` are dictionaries with their
canonical keys; the four section fields are lists whose entries have the
canonical per-entry shapes. (Leaf values keep whatever type the raw input
had — the code does not coerce them.) -/
def conformantB : PyVal → Bool
  | .dict [("header", hd), ("contact", ct), ("summary", s), ("skills", .list sk),
           ("projects", .list pr), ("experience", .list ex), ("education", .list ed)] =>
      headerShapeB hd && contactShapeB ct && sk.all skillShapeB && pr.all projShapeB &&
      ex.all expShapeB && ed.all eduShapeB
  | _ => false

end ResumeAgent

/-- The canonical cleaned document with empty header, contact and summary
and the given section lists; `_validate_and_clean` produces exactly this on
inputs whose header/contact/summary are absent and whose profile is empty. -/
def cleanedDoc (sk pr ex ed : List PyVal) : PyVal :=
  .dict [("header", .dict [("name", .str ""), ("title", .str "")]),
         ("contact", .dict [("phone", .str ""), ("email", .str ""), ("address", .str ""),
                            ("website", .str ""), ("linkedin", .str "")]),
         ("summary", .str ""),
         ("skills", .list sk),
         ("projects", .list pr),
         ("experience", .list ex),
         ("education", .list ed)]

/-! The renderer (`services/html_pdf_generator.py`). A conformant Resume
document is modelled by the `Resume` structure below; the Jinja template
`RESUME_TEMPLATE` is embedded as a function from `Resume` to the emitted
text. Output is modelled as a list of `Item`s — template-authored text
(`Item.tpl`) interleaved with document text inserted at the `\x7b\x7b ... \x7d\x7d`
holes (`Item.dat`) — whose concatenation is the rendered string. Jinja
renders with default settings (no autoescape, so document text is inserted
verbatim; `if` on a string tests non-emptiness, on a list non-emptiness;
`upper` is upper-casing; `join` with a comma-space separator joins a
list). Whitespace of
removed `\x7b% ... %\x7d` tag lines is not reproduced exactly; no claim depends
on whitespace. -/

namespace HTMLPDFGenerator

/-- A skill entry of a conformant Resume document. -/
structure Skill where
  name : String
  level : Int

/-- A project entry of a conformant Resume document. -/
structure Project where
  title : String
  tech_stack : List String
  points : List String

/-- An experience entry of a conformant Resume document. -/
structure Experience where
  role : String
  company : String
  location : String
  duration : String
  points : List String

/-- An education entry of a conformant Resume document. -/
structure Education where
  degree : String
  institution : String
  year : String
  details : String

/-- The header of a conformant Resume document. -/
structure Header where
  name : String
  title : String

/-- The contact block of a conformant Resume document. -/
structure Contact where
  phone : String
  email : String
  address : String
  website : String
  linkedin : String

/-- A conformant Resume document (the strict schema of §3 of the spec):
all seven fields present, sections possibly empty. -/
structure Resume where
  header : Header
  contact : Contact
  summary : String
  skills : List Skill
  projects : List Project
  experience : List Experience
  education : List Education

/-- One piece of rendered output: template-authored text, or document text
inserted at an interpolation hole. -/
inductive Item where
  | tpl (s : String)
  | dat (s : String)
deriving DecidableEq

/-- The text of an output piece. -/
def Item.text : Item → String
  | .tpl s => s
  | .dat s => s

/-- The lines of the CSS inside the `<style>` element of
`RESUME_TEMPLATE`, as consecutive template pieces. -/
def styleParts : List String :=
  ["        @page \x7b\n            size: A4;\n            margin: 0;\n        \x7d\n        \n",
   "        * \x7b\n            margin: 0;\n            padding: 0;\n            box-sizing: border-box;\n",
   "        \x7d\n        \n        body \x7b\n            font-family: Helvetica, Arial, sans-serif;\n",
   "            font-size: 10pt;\n            line-height: 1.4;\n            color: #333333;\n            background: white;\n",
   "        \x7d\n        \n        /* Header Bar - Teal Blue */\n        .header \x7b\n            background-color: #2e6677;\n",
   "            color: white;\n            text-align: center;\n            padding: 30px 20px;\n",
   "            width: 100%;\n        \x7d\n        \n        .header h1 \x7b\n            font-size: 26pt;\n",
   "            font-weight: normal;\n            letter-spacing: 4px;\n            margin-bottom: 8px;\n",
   "            text-transform: uppercase;\n            color: white;\n        \x7d\n        \n",
   "        .header h2 \x7b\n            font-size: 11pt;\n            font-weight: normal;\n            letter-spacing: 3px;\n",
   "            text-transform: uppercase;\n            color: #e0e0e0;\n        \x7d\n        \n",
   "        /* Main Container - Two Columns */\n        .container \x7b\n            width: 100%;\n",
   "        \x7d\n        \n        .columns \x7b\n            width: 100%;\n        \x7d\n        \n",
   "        /* Left Column (35%) */\n        .left-column \x7b\n            width: 35%;\n            background-color: #f5f6f7;\n",
   "            padding: 25px 20px;\n            vertical-align: top;\n        \x7d\n        \n",
   "        /* Right Column (65%) */\n        .right-column \x7b\n            width: 65%;\n            padding: 25px 25px;\n",
   "            background: white;\n            vertical-align: top;\n        \x7d\n        \n        /* Section Headers */\n",
   "        .section-title \x7b\n            font-size: 10pt;\n            font-weight: bold;\n",
   "            color: #2e6677;\n            letter-spacing: 2px;\n            text-transform: uppercase;\n",
   "            margin-bottom: 12px;\n            padding-bottom: 5px;\n            border-bottom: 1.5px solid #2e6677;\n",
   "        \x7d\n        \n        .section \x7b\n            margin-bottom: 20px;\n        \x7d\n",
   "        \n        /* Contact Section */\n        .contact-item \x7b\n            margin-bottom: 8px;\n",
   "            font-size: 9pt;\n        \x7d\n        \n        .contact-label \x7b\n            color: #2e6677;\n",
   "            font-weight: bold;\n            display: inline-block;\n            width: 55px;\n",
   "        \x7d\n        \n        .contact-value \x7b\n            color: #555555;\n        \x7d\n",
   "        \n        /* Summary */\n        .summary-text \x7b\n            font-size: 9pt;\n            color: #555555;\n",
   "            font-style: italic;\n            line-height: 1.5;\n            text-align: justify;\n",
   "        \x7d\n        \n        /* Education */\n        .education-item \x7b\n            margin-bottom: 15px;\n",
   "        \x7d\n        \n        .education-year \x7b\n            font-size: 9pt;\n            color: #2e6677;\n",
   "            font-style: italic;\n            margin-bottom: 3px;\n        \x7d\n        \n        .education-degree \x7b\n",
   "            font-size: 10pt;\n            font-weight: bold;\n            color: #222222;\n",
   "        \x7d\n        \n        .education-honors \x7b\n            font-size: 9pt;\n            color: #555555;\n",
   "            font-style: italic;\n        \x7d\n        \n        .education-institution \x7b\n",
   "            font-size: 9pt;\n            color: #666666;\n        \x7d\n        \n        /* Skills with Progress Bars */\n",
   "        .skill-item \x7b\n            margin-bottom: 12px;\n        \x7d\n        \n        .skill-header \x7b\n",
   "            margin-bottom: 4px;\n        \x7d\n        \n        .skill-name \x7b\n            font-size: 9pt;\n",
   "            color: #333333;\n        \x7d\n        \n        .skill-level \x7b\n            font-size: 9pt;\n",
   "            color: #2e6677;\n            font-weight: bold;\n            float: right;\n        \x7d\n",
   "        \n        .skill-bar \x7b\n            background: #dddddd;\n            height: 5px;\n",
   "            width: 100%;\n            clear: both;\n        \x7d\n        \n        .skill-fill \x7b\n",
   "            background: #2e6677;\n            height: 5px;\n        \x7d\n        \n        /* Experience Section */\n",
   "        .experience-item \x7b\n            margin-bottom: 18px;\n        \x7d\n        \n        .experience-duration \x7b\n",
   "            font-size: 9pt;\n            color: #2e6677;\n            font-weight: bold;\n            margin-bottom: 2px;\n",
   "        \x7d\n        \n        .experience-role \x7b\n            font-size: 11pt;\n            font-weight: bold;\n",
   "            color: #222222;\n            font-style: italic;\n        \x7d\n        \n        .experience-company \x7b\n",
   "            font-size: 9pt;\n            color: #2e6677;\n            margin-bottom: 6px;\n",
   "        \x7d\n        \n        .experience-points \x7b\n            margin-left: 15px;\n            font-size: 9pt;\n",
   "            color: #555555;\n        \x7d\n        \n        .experience-points li \x7b\n            margin-bottom: 4px;\n",
   "            line-height: 1.4;\n        \x7d\n        \n        /* Projects Section */\n        .project-item \x7b\n",
   "            margin-bottom: 15px;\n        \x7d\n        \n        .project-title \x7b\n            font-size: 10pt;\n",
   "            font-weight: bold;\n            color: #222222;\n            margin-bottom: 3px;\n",
   "        \x7d\n        \n        .project-tech \x7b\n            font-size: 8pt;\n            color: #2e6677;\n",
   "            font-style: italic;\n            margin-bottom: 5px;\n        \x7d\n        \n        .project-points \x7b\n",
   "            margin-left: 15px;\n            font-size: 9pt;\n            color: #555555;\n        \x7d\n",
   "        \n        .project-points li \x7b\n            margin-bottom: 3px;\n            line-height: 1.4;\n",
   "        \x7d\n"]

/-- The CSS rules of `RESUME_TEMPLATE` as one string. -/
def styleText : String := String.join styleParts

/-- Template text from the start of `RESUME_TEMPLATE` up to the
`header.name` hole inside `<title>`. -/
def chunkDocHead : String :=
  "\n<!DOCTYPE html>\n<html lang=\"en\">\n<head>\n    <meta charset=\"UTF-8\">\n    <title>"

/-- Template text from after the `<title>` hole up to the CSS. -/
def chunkTitleToStyle : String := " - Resume</title>\n    <style>\n"

/-- Template text from after the CSS up to the upper-cased `header.name`
hole in `<h1>`. -/
def chunkStyleToH1 : String :=
  "    </style>\n</head>\n<body>\n    <!-- Header -->\n    <div class=\"header\">\n        <h1>"

/-- The CSS emitted as consecutive template pieces. -/
def styleItems : List Item := styleParts.map Item.tpl

/-- Template text between the `<h1>` and `<h2>` holes of the header band. -/
def chunkH1ToH2 : String := "</h1>\n        <h2>"

/-- Template text closing the header band and opening the table, the left
column and the Contact section (whose title is rendered unconditionally). -/
def chunkBandClose : String :=
  "</h2>\n    </div>\n\n    <!-- Main Content - Two Columns using Table -->\n" ++
  "    <table class=\"columns\" cellpadding=\"0\" cellspacing=\"0\">\n        <tr>\n" ++
  "            <!-- Left Column -->\n            <td class=\"left-column\">\n" ++
  "                <!-- Contact -->\n                <div class=\"section\">\n" ++
  "                    <div class=\"section-title\">Contact</div>\n"

/-- Closing `</div>` of a section block. -/
def sectionClose : String := "                </div>\n"

/-- Template text of a contact row before the value hole (the label is one
of the five literals appearing in the template). -/
def contactRowPre (label : String) : String :=
  "                    <div class=\"contact-item\">\n" ++
  "                        <span class=\"contact-label\">" ++ label ++ "</span>\n" ++
  "                        <span class=\"contact-value\">"

/-- Template text of a contact row after the value hole. -/
def contactRowPost : String := "</span>\n                    </div>\n"

/-- One conditional contact row: emitted only when the value is non-empty
(Jinja `if` on a string). -/
def contactRow (label value : String) : List Item :=
  if value = "" then [] else [.tpl (contactRowPre label), .dat value, .tpl contactRowPost]

/-- The Contact section rows of the left column (the section header itself
is part of `chunkBandClose` and is always emitted). -/
def contactItems (c : Contact) : List Item :=
  contactRow ("phone") c.phone ++ contactRow ("email") c.email ++
  contactRow ("address") c.address ++ contactRow ("website") c.website ++
  contactRow ("linkedin") c.linkedin ++ [.tpl sectionClose]

/-- Template comment emitted between the Contact and Summary sections. -/
def summaryComment : String := "\n                <!-- Summary -->\n"

/-- Opening of the Summary section, up to the summary hole. -/
def summaryOpen : String :=
  "                <div class=\"section\">\n" ++
  "                    <div class=\"section-title\">Summary</div>\n" ++
  "                    <p class=\"summary-text\">"

/-- Closing of the Summary section. -/
def summaryClose : String := "</p>\n                </div>\n"

/-- The Summary section: omitted entirely when the summary is empty. -/
def summaryItems (s : String) : List Item :=
  if s = "" then [] else [.tpl summaryOpen, .dat s, .tpl summaryClose]

/-- Template comment emitted between the Summary and Education sections. -/
def eduComment : String := "\n                <!-- Education -->\n"

/-- Opening of the Education section including its section title. -/
def eduOpen : String :=
  "                <div class=\"section\">\n" ++
  "                    <div class=\"section-title\">Education</div>\n"

/-- Start of one education block, up to the year hole. -/
def eduItemPre : String :=
  "                    <div class=\"education-item\">\n" ++
  "                        <div class=\"education-year\">"

/-- Between the year and degree holes of an education block. -/
def eduYearToDegree : String := "</div>\n                        <div class=\"education-degree\">"

/-- Closing `</div>` after the degree hole. -/
def eduDegreeClose : String := "</div>\n"

/-- Opening of the conditional honors row, up to the details hole. -/
def eduHonorsPre : String := "                        <div class=\"education-honors\">"

/-- Closing of the conditional honors row. -/
def eduHonorsPost : String := "</div>\n"

/-- Opening of the institution row, up to the institution hole. -/
def eduInstPre : String := "                        <div class=\"education-institution\">"

/-- Closing of the institution row and of the education block. -/
def eduItemClose : String := "</div>\n                    </div>\n"

/-- One education block; the honors row is emitted only when `details` is
non-empty. -/
def eduItem (e : Education) : List Item :=
  [.tpl eduItemPre, .dat e.year, .tpl eduYearToDegree, .dat e.degree, .tpl eduDegreeClose] ++
  (if e.details = "" then [] else [.tpl eduHonorsPre, .dat e.details, .tpl eduHonorsPost]) ++
  [.tpl eduInstPre, .dat e.institution, .tpl eduItemClose]

/-- The Education section: omitted entirely when the list is empty. -/
def educationItems (es : List Education) : List Item :=
  if es.isEmpty then [] else [.tpl eduOpen] ++ es.flatMap eduItem ++ [.tpl sectionClose]

/-- Template comment emitted between the Education and Skills sections. -/
def skillsComment : String := "\n                <!-- Skills -->\n"

/-- Opening of the Skills section including its section title. -/
def skillsOpen : String :=
  "                <div class=\"section\">\n" ++
  "                    <div class=\"section-title\">Relevant Skills</div>\n"

/-- Start of one skill block, up to the name hole. -/
def skillItemPre : String :=
  "                    <div class=\"skill-item\">\n" ++
  "                        <div class=\"skill-header\">\n" ++
  "                            <span class=\"skill-name\">"

/-- Between the name hole and the first level hole. -/
def skillNameToLevel : String :=
  "</span>\n                            <span class=\"skill-level\">"

/-- The text of the bar width attribute up to the level hole. -/
def widthPre : String := "style=\"width: "

/-- The percent sign and closing quote after the level hole of the width
attribute. -/
def pctQ : String := "%;\""

/-- Template text from the first level hole (a literal percent sign, the
closing of the skill header, the bar track) up to the width attribute. -/
def skillFillLead : String :=
  "%</span>\n                        </div>\n" ++
  "                        <div class=\"skill-bar\">\n" ++
  "                            <div class=\"skill-fill\" "

/-- Between the first level hole and the second level hole inside the bar
`width` style attribute. -/
def skillLevelToFill : String := skillFillLead ++ widthPre

/-- Closing of the fill element after the width attribute. -/
def skillFillTail : String :=
  "></div>\n                        </div>\n                    </div>\n"

/-- Closing of the filled bar and of the skill block. -/
def skillFillClose : String := pctQ ++ skillFillTail

/-- One skill block; the level is interpolated twice, as the displayed
percentage and as the bar `width` value. -/
def skillItem (s : Skill) : List Item :=
  [.tpl skillItemPre, .dat s.name, .tpl skillNameToLevel, .dat (toString s.level),
   .tpl skillLevelToFill, .dat (toString s.level), .tpl skillFillClose]

/-- The Skills section: omitted entirely when the list is empty. -/
def skillsItems (ss : List Skill) : List Item :=
  if ss.isEmpty then [] else [.tpl skillsOpen] ++ ss.flatMap skillItem ++ [.tpl sectionClose]

/-- Closing the left column and opening the right column, including the
Professional Experience comment. -/
def midChunk : String :=
  "            </td>\n\n            <!-- Right Column -->\n" ++
  "            <td class=\"right-column\">\n                <!-- Professional Experience -->\n"

/-- Opening of the Professional Experience section including its title. -/
def expOpen : String :=
  "                <div class=\"section\">\n" ++
  "                    <div class=\"section-title\">Professional Experience</div>\n"

/-- Start of one experience block, up to the duration hole. -/
def expItemPre : String :=
  "                    <div class=\"experience-item\">\n" ++
  "                        <div class=\"experience-duration\">"

/-- Between the duration and role holes. -/
def expDurToRole : String := "</div>\n                        <div class=\"experience-role\">"

/-- Between the role and company holes. -/
def expRoleToCompany : String := "</div>\n                        <div class=\"experience-company\">"

/-- The closing of the company row. -/
def expCompanyClose : String := "</div>\n"

/-- Opening of the conditional experience bullet list. -/
def expPointsOpen : String := "                        <ul class=\"experience-points\">\n"

/-- Closing of the conditional experience bullet list. -/
def expPointsClose : String := "                        </ul>\n"

/-- Opening of one bullet item, up to the point hole. -/
def liOpen : String := "                            <li>"

/-- Closing of one bullet item. -/
def liClose : String := "</li>\n"

/-- Closing of one experience block. -/
def expItemClose : String := "                    </div>\n"

/-- One experience block; `, location` is appended only when the location
is non-empty, and the bullet list only when `points` is non-empty. -/
def expItem (e : Experience) : List Item :=
  [.tpl expItemPre, .dat e.duration, .tpl expDurToRole, .dat e.role,
   .tpl expRoleToCompany, .dat e.company] ++
  (if e.location = "" then [] else [.tpl (", "), .dat e.location]) ++
  [.tpl expCompanyClose] ++
  (if e.points.isEmpty then [] else
    [.tpl expPointsOpen] ++ e.points.flatMap (fun pt => [.tpl liOpen, .dat pt, .tpl liClose]) ++
    [.tpl expPointsClose]) ++
  [.tpl expItemClose]

/-- The Professional Experience section: omitted entirely when empty. -/
def experienceItems (es : List Experience) : List Item :=
  if es.isEmpty then [] else [.tpl expOpen] ++ es.flatMap expItem ++ [.tpl sectionClose]

/-- Template comment emitted between the Experience and Projects sections. -/
def projComment : String := "\n                <!-- Projects -->\n"

/-- Opening of the Projects section including its section title. -/
def projOpen : String :=
  "                <div class=\"section\">\n" ++
  "                    <div class=\"section-title\">Projects</div>\n"

/-- Start of one project block, up to the title hole. -/
def projItemPre : String :=
  "                    <div class=\"project-item\">\n" ++
  "                        <div class=\"project-title\">"

/-- Closing of the title row. -/
def projTitleClose : String := "</div>\n"

/-- Opening of the conditional tech-stack row, up to the joined hole. -/
def projTechPre : String := "                        <div class=\"project-tech\">"

/-- Closing of the conditional tech-stack row. -/
def projTechPost : String := "</div>\n"

/-- Opening of the conditional project bullet list. -/
def projPointsOpen : String := "                        <ul class=\"project-points\">\n"

/-- Closing of the conditional project bullet list. -/
def projPointsClose : String := "                        </ul>\n"

/-- Closing of one project block. -/
def projItemClose : String := "                    </div>\n"

/-- One project block; the tech-stack row (comma-joined) is emitted only
when `tech_stack` is non-empty, and the bullet list only when `points` is
non-empty. -/
def projItem (p : Project) : List Item :=
  [.tpl projItemPre, .dat p.title, .tpl projTitleClose] ++
  (if p.tech_stack.isEmpty then [] else
    [.tpl projTechPre, .dat (String.intercalate (", ") p.tech_stack), .tpl projTechPost]) ++
  (if p.points.isEmpty then [] else
    [.tpl projPointsOpen] ++ p.points.flatMap (fun pt => [.tpl liOpen, .dat pt, .tpl liClose]) ++
    [.tpl projPointsClose]) ++
  [.tpl projItemClose]

/-- The Projects section: omitted entirely when the list is empty. -/
def projectsItems (ps : List Project) : List Item :=
  if ps.isEmpty then [] else [.tpl projOpen] ++ ps.flatMap projItem ++ [.tpl sectionClose]

/-- Closing of the right column, table and document. -/
def tailChunk : String := "            </td>\n        </tr>\n    </table>\n</body>\n</html>\n"

/-- The whole template output as a sequence of pieces, in template order. -/
def renderItems (r : Resume) : List Item :=
  [.tpl chunkDocHead, .dat r.header.name, .tpl chunkTitleToStyle] ++ styleItems ++
  [.tpl chunkStyleToH1, .dat r.header.name.toUpper, .tpl chunkH1ToH2,
   .dat r.header.title.toUpper, .tpl chunkBandClose] ++
  contactItems r.contact ++
  [.tpl summaryComment] ++ summaryItems r.summary ++
  [.tpl eduComment] ++ educationItems r.education ++
  [.tpl skillsComment] ++ skillsItems r.skills ++
  [.tpl midChunk] ++ experienceItems r.experience ++
  [.tpl projComment] ++ projectsItems r.projects ++
  [.tpl tailChunk]

/-- The characters of the concatenated output pieces. -/
def flatD (items : List Item) : List Char :=
  items.foldr (fun i acc => (Item.text i).data ++ acc) []

/-- Embedding of `HTMLPDFGenerator.generate_html_preview(resume_data)`: the rendered
template as a string (`self.template.render(**resume_data)`). -/
def generate_html_preview (r : Resume) : String :=
  ⟨flatD (renderItems r)⟩

end HTMLPDFGenerator

/-- Boolean prefix test on character lists. -/
def isPrefB : List Char → List Char → Bool
  | [], _ => true
  | _ :: _, [] => false
  | a :: as, b :: bs => a == b && isPrefB as bs

/-- Boolean infix (substring) test on character lists. -/
def infixB (n : List Char) : List Char → Bool
  | [] => n.isEmpty
  | h :: t => isPrefB n (h :: t) || infixB n t

/-- Proposition that `needle` occurs as a contiguous substring of `hay`. -/
def infixOf (needle hay : String) : Prop := infixB needle.data hay.data = true

namespace HTMLPDFGenerator

/-- The needle hits an output piece when it occurs inside TEMPLATE-authored
text; document-inserted text never counts (the renderer performs no HTML
escaping, so document text is copied verbatim and may contain arbitrary
markup of its own). -/
def hitB (n : String) : Item → Bool
  | .tpl s => infixB n.data s.data
  | .dat _ => false

/-- How many template-authored output pieces contain the needle. -/
def tplCount (n : String) (items : List Item) : Nat := items.countP (hitB n)

/-- The Contact section header exactly as the template emits it. -/
def contactHeaderN : String := "<div class=\"section-title\">Contact</div>"

/-- The Summary section header exactly as the template emits it. -/
def summaryHeaderN : String := "<div class=\"section-title\">Summary</div>"

/-- The Education section header exactly as the template emits it. -/
def eduHeaderN : String := "<div class=\"section-title\">Education</div>"

/-- The Skills section header exactly as the template emits it. -/
def skillsHeaderN : String := "<div class=\"section-title\">Relevant Skills</div>"

/-- The Professional Experience section header exactly as the template
emits it. -/
def expHeaderN : String := "<div class=\"section-title\">Professional Experience</div>"

/-- The Projects section header exactly as the template emits it. -/
def projHeaderN : String := "<div class=\"section-title\">Projects</div>"

/-- The opening tag of one project block. -/
def projBlockN : String := "<div class=\"project-item\">"

/-- The opening tag of one contact row. -/
def contactItemN : String := "<div class=\"contact-item\">"

/-- The bar width attribute carrying exactly the level of the skill
(percent units). -/
def widthAttrN (lvl : Int) : String := widthPre ++ toString lvl ++ pctQ

/-- The template-authored pieces the fixed (unconditional) parts of the
template can emit. -/
def fixedChunks : List Item :=
  [.tpl chunkDocHead, .tpl chunkTitleToStyle, .tpl chunkStyleToH1, .tpl chunkH1ToH2,
   .tpl chunkBandClose, .tpl summaryComment, .tpl eduComment, .tpl skillsComment,
   .tpl midChunk, .tpl projComment, .tpl tailChunk] ++ styleItems

/-- The template-authored pieces the Contact section can emit. -/
def contactChunks : List Item :=
  [.tpl (contactRowPre ("phone")), .tpl (contactRowPre ("email")),
   .tpl (contactRowPre ("address")), .tpl (contactRowPre ("website")),
   .tpl (contactRowPre ("linkedin")), .tpl contactRowPost, .tpl sectionClose]

/-- The template-authored pieces the Summary section can emit. -/
def summaryChunks : List Item := [.tpl summaryOpen, .tpl summaryClose]

/-- The template-authored pieces the Education section can emit. -/
def eduSecChunks : List Item :=
  [.tpl eduOpen, .tpl eduItemPre, .tpl eduYearToDegree, .tpl eduDegreeClose,
   .tpl eduHonorsPre, .tpl eduHonorsPost, .tpl eduInstPre, .tpl eduItemClose,
   .tpl sectionClose]

/-- The template-authored pieces the Skills section can emit. -/
def skillSecChunks : List Item :=
  [.tpl skillsOpen, .tpl skillItemPre, .tpl skillNameToLevel, .tpl skillLevelToFill,
   .tpl skillFillClose, .tpl sectionClose]

/-- The template-authored pieces the Experience section can emit. -/
def expSecChunks : List Item :=
  [.tpl expOpen, .tpl expItemPre, .tpl expDurToRole, .tpl expRoleToCompany,
   .tpl (", "), .tpl expCompanyClose, .tpl expPointsOpen, .tpl liOpen, .tpl liClose,
   .tpl expPointsClose, .tpl expItemClose, .tpl sectionClose]

/-- The template-authored pieces one project block can emit. -/
def projItemChunks : List Item :=
  [.tpl projItemPre, .tpl projTitleClose, .tpl projTechPre, .tpl projTechPost,
   .tpl projPointsOpen, .tpl liOpen, .tpl liClose, .tpl projPointsClose,
   .tpl projItemClose]

/-- The template-authored pieces the Projects section can emit. -/
def projSecChunks : List Item :=
  .tpl projOpen :: .tpl sectionClose :: projItemChunks

/-- The conformant document with every field empty. -/
def emptyResume : Resume :=
  ⟨⟨"", ""⟩, ⟨"", "", "", "", ""⟩, "", [], [], [], []⟩

/-- A conformant document whose summary text happens to contain the
Projects section-header markup (no field is escaped by the renderer). -/
def injResume : Resume :=
  ⟨⟨"", ""⟩, ⟨"", "", "", "", ""⟩, projHeaderN, [], [], [], []⟩

/-- A conformant document with a single skill at level 37. -/
def skillResume : Resume :=
  ⟨⟨"", ""⟩, ⟨"", "", "", "", ""⟩, "", [⟨"Python", 37⟩], [], [], []⟩

/-- A conformant document with a single project entry. -/
def oneProjResume : Resume :=
  ⟨⟨"", ""⟩, ⟨"", "", "", "", ""⟩, "", [], [⟨"Chess engine", [], []⟩], [], []⟩

/-- Result of the external rasterization call (`pisa.CreatePDF`): the
error count it reports (`pisa_status.err`) and the bytes it wrote to its
destination. The rasterizer itself is outside the boundary drawn by the
spec
("render(document) -> bytes"), so `generate_pdf` and `generate_pdf_bytes`
are modelled as parameterized by its outcome. -/
structure RasterResult where
  err : Nat
  bytes : List Nat

/-- The dictionary returned by `generate_pdf` (`filename` is present only
on success, `file_path` is `None` on error). -/
structure PdfResult where
  status : String
  message : String
  file_path : Option String
  filename : Option String
deriving DecidableEq

/-- The filename slug: the header name lower-cased with every
non-alphanumeric character replaced by an underscore. -/
def nameSlug (name : String) : String :=
  ⟨(name.toLower).data.map (fun c => if c.isAlphanum then c else '_')⟩

/-- Embedding of `HTMLPDFGenerator.generate_pdf(resume_data, filename, ...)`: builds the
file name (generated from the name slug and a timestamp when no non-empty
filename is given, `.pdf` appended when missing), renders the template,
invokes the rasterizer, and returns an error dictionary carrying the
error count reported by the rasterizer (with no file artifact) when it
reports errors, a success dictionary with the file path otherwise. -/
def generate_pdf (resume_data : Resume) (filename : Option String)
    (timestamp : String) (output_dir : String)
    (raster : String → RasterResult) : PdfResult :=
  let fn0 := match filename with | some f => f | none => ""
  let fn1 := if fn0 = "" then
      nameSlug resume_data.header.name ++ "_" ++ timestamp ++ ".pdf"
    else fn0
  let fn2 := if fn1.endsWith (".pdf") then fn1 else fn1 ++ ".pdf"
  let filepath := output_dir ++ "/" ++ fn2
  let html_content := generate_html_preview resume_data
  let pisa_status := raster html_content
  if pisa_status.err ≠ 0 then
    ⟨"error", "PDF generation had errors: " ++ toString pisa_status.err, none, none⟩
  else
    ⟨"success", "Resume PDF generated successfully", some filepath, some fn2⟩

/-- Embedding of `HTMLPDFGenerator.generate_pdf_bytes(resume_data)`: renders the
template, invokes the rasterizer on a fresh buffer, and returns the
buffer contents — without consulting the error status of the rasterizer. -/
def generate_pdf_bytes (resume_data : Resume) (raster : String → RasterResult) :
    List Nat :=
  (raster (generate_html_preview resume_data)).bytes

/-- The fields `validate_resume_data` checks (its `required_structure`
keys): note `projects` is absent. -/
def requiredFields : List String :=
  ["header", "contact", "summary", "skills", "experience", "education"]

/-- The dictionary returned by `validate_resume_data`. -/
structure ValidationResult where
  valid : Bool
  missing_fields : List String
  message : String
deriving DecidableEq

/-- Python `field in data` on a dictionary. -/
def hasKey (data : List (String × PyVal)) (k : String) : Bool :=
  data.any (fun kv => kv.1 == k)

/-- Python `repr` of a list of strings, as interpolated into the message. -/
def pyReprStrList (l : List String) : String :=
  "[" ++ String.intercalate (", ") (l.map (fun s => pyQuote ++ s ++ pyQuote)) ++ "]"

/-- Embedding of `HTMLPDFGenerator.validate_resume_data(data)`: collects the required
fields absent from the document and reports validity. -/
def validate_resume_data (data : List (String × PyVal)) : ValidationResult :=
  let missing := requiredFields.filter (fun f => !(hasKey data f))
  ⟨missing.length == 0, missing,
   if missing.length == 0 then "Valid resume data"
   else "Missing fields: " ++ pyReprStrList missing⟩

/-- A document carrying the six checked fields and nothing else — in
particular no `projects`. -/
def sixFieldDoc : List (String × PyVal) :=
  [("header", .dict [("name", .str "Jane Doe"), ("title", .str "")]),
   ("contact", .dict []), ("summary", .str ""), ("skills", .list []),
   ("experience", .list []), ("education", .list [])]

/-- A rasterizer outcome that reports one error and leaves a truncated
byte prefix in the destination buffer. -/
def rasterFail : String → RasterResult := fun _ => ⟨1, [37, 80, 68, 70]⟩

end HTMLPDFGenerator

/-! Theorems about the embedded operations. -/

namespace ResumeAgent

theorem dictGet_ok_dict {p : PyVal} {k : String} {df v : PyVal}
    (h : dictGet p k df = .ok v) : ∃ kvs, p = .dict kvs := by
  cases p <;> first | exact ⟨_, rfl⟩ | simp [dictGet] at h

theorem cleanSkills_shape : ∀ (es ls : List PyVal),
    cleanSkills es = .ok ls → ls.all skillShapeB = true := by
  intro es
  induction es with
  | nil =>
    intro ls h
    simp only [cleanSkills, Except.ok.injEq] at h
    subst h
    rfl
  | cons e rest ih =>
    intro ls h
    cases e with
    | dict kvs =>
      simp only [cleanSkills, bind, Except.bind] at h
      split at h
      · exact absurd h (by simp)
      · rename_i lvl hlvl
        split at h
        · exact absurd h (by simp)
        · rename_i tail htail
          simp only [Except.ok.injEq] at h
          subst h
          simp only [List.all_cons, Bool.and_eq_true]
          exact ⟨rfl, ih tail htail⟩
    | str s =>
      simp only [cleanSkills, bind, Except.bind] at h
      split at h
      · exact absurd h (by simp)
      · rename_i tail htail
        simp only [Except.ok.injEq] at h
        subst h
        simp only [List.all_cons, Bool.and_eq_true]
        exact ⟨rfl, ih tail htail⟩
    | none => exact ih ls h
    | bool b => exact ih ls h
    | int n => exact ih ls h
    | list xs => exact ih ls h

theorem cleanSkills_id : ∀ (ls : List PyVal),
    ls.all skillShapeB = true → cleanSkills ls = .ok ls := by
  intro ls
  induction ls with
  | nil => intro h; rfl
  | cons d tail ih =>
    intro h
    simp only [List.all_cons, Bool.and_eq_true] at h
    obtain ⟨hd, ht⟩ := h
    unfold skillShapeB at hd
    split at hd
    · rename_i n l
      simp only [cleanSkills, bind, Except.bind, ih ht]
      rfl
    · exact absurd hd (by simp)

theorem cleanProjects_shape : ∀ (es : List PyVal),
    (cleanProjects es).all projShapeB = true := by
  intro es
  induction es with
  | nil => rfl
  | cons e rest ih =>
    cases e <;> simp [cleanProjects, projShapeB, ih]

theorem cleanProjects_id : ∀ (ls : List PyVal),
    ls.all projShapeB = true → cleanProjects ls = ls := by
  intro ls
  induction ls with
  | nil => intro h; rfl
  | cons d tail ih =>
    intro h
    simp only [List.all_cons, Bool.and_eq_true] at h
    obtain ⟨hd, ht⟩ := h
    unfold projShapeB at hd
    split at hd
    · rename_i t ts ps
      simp only [cleanProjects, ih ht]
      rfl
    · exact absurd hd (by simp)

theorem cleanExperience_shape : ∀ (es : List PyVal),
    (cleanExperience es).all expShapeB = true := by
  intro es
  induction es with
  | nil => rfl
  | cons e rest ih =>
    cases e <;> simp [cleanExperience, expShapeB, ih]

theorem cleanExperience_id : ∀ (ls : List PyVal),
    ls.all expShapeB = true → cleanExperience ls = ls := by
  intro ls
  induction ls with
  | nil => intro h; rfl
  | cons d tail ih =>
    intro h
    simp only [List.all_cons, Bool.and_eq_true] at h
    obtain ⟨hd, ht⟩ := h
    unfold expShapeB at hd
    split at hd
    · rename_i r c l du ps
      simp only [cleanExperience, ih ht]
      rfl
    · exact absurd hd (by simp)

theorem cleanEducation_shape : ∀ (es : List PyVal),
    (cleanEducation es).all eduShapeB = true := by
  intro es
  induction es with
  | nil => rfl
  | cons e rest ih =>
    cases e <;> simp [cleanEducation, eduShapeB, ih]

theorem cleanEducation_id : ∀ (ls : List PyVal),
    ls.all eduShapeB = true → cleanEducation ls = ls := by
  intro ls
  induction ls with
  | nil => intro h; rfl
  | cons d tail ih =>
    intro h
    simp only [List.all_cons, Bool.and_eq_true] at h
    obtain ⟨hd, ht⟩ := h
    unfold eduShapeB at hd
    split at hd
    · rename_i dg i y dt
      simp only [cleanEducation, ih ht, pyStr]
      rfl
    · exact absurd hd (by simp)

theorem cleanHeader_ok {d p v : PyVal} (h : cleanHeader d p = .ok v) :
    (∃ n t, v = .dict [("name", n), ("title", t)]) ∧ ∃ pkvs, p = .dict pkvs := by
  simp only [cleanHeader, bind, Except.bind] at h
  split at h
  · exact absurd h (by simp)
  rename_i hdr1 hh1
  split at h
  · exact absurd h (by simp)
  rename_i pn hpn
  split at h
  · exact absurd h (by simp)
  rename_i nm hnm
  split at h
  · exact absurd h (by simp)
  rename_i hdr2 hh2
  split at h
  · exact absurd h (by simp)
  rename_i tl htl
  simp only [Except.ok.injEq] at h
  subst h
  exact ⟨⟨nm, tl, rfl⟩, dictGet_ok_dict hpn⟩

theorem cleanContact_ok {d p v : PyVal} (h : cleanContact d p = .ok v) :
    ∃ a b c e f, v = .dict [("phone", a), ("email", b), ("address", c),
                            ("website", e), ("linkedin", f)] := by
  simp only [cleanContact, bind, Except.bind] at h
  split at h
  · exact absurd h (by simp)
  rename_i v1 h1
  split at h
  · exact absurd h (by simp)
  rename_i v2 h2
  split at h
  · exact absurd h (by simp)
  rename_i v3 h3
  split at h
  · exact absurd h (by simp)
  rename_i v4 h4
  split at h
  · exact absurd h (by simp)
  rename_i v5 h5
  simp only [Except.ok.injEq] at h
  subst h
  exact ⟨v1, v2, v3, v4, v5, rfl⟩

theorem headerShapeB_inv {v : PyVal} (h : headerShapeB v = true) :
    ∃ n t, v = .dict [("name", n), ("title", t)] := by
  unfold headerShapeB at h
  split at h
  · rename_i n t
    exact ⟨n, t, rfl⟩
  · exact absurd h (by simp)

theorem contactShapeB_inv {v : PyVal} (h : contactShapeB v = true) :
    ∃ a b c e f, v = .dict [("phone", a), ("email", b), ("address", c),
                            ("website", e), ("linkedin", f)] := by
  unfold contactShapeB at h
  split at h
  · rename_i a b c e f
    exact ⟨a, b, c, e, f, rfl⟩
  · exact absurd h (by simp)

set_option maxHeartbeats 1000000 in
/-- Whenever `_validate_and_clean` returns (rather than raising), its result
passes the `conformantB` shape check, and the profile argument necessarily
was a dictionary (its `.get` is evaluated unconditionally). -/
theorem ok_conformant {d p out : PyVal} (h : validate_and_clean d p = .ok out) :
    conformantB out = true ∧ ∃ pkvs, p = .dict pkvs := by
  simp only [validate_and_clean, bind, Except.bind] at h
  split at h
  · exact absurd h (by simp)
  rename_i header hH
  split at h
  · exact absurd h (by simp)
  rename_i contact hC
  split at h
  · exact absurd h (by simp)
  rename_i summary hS
  split at h
  · exact absurd h (by simp)
  rename_i skE hskE
  split at h
  · exact absurd h (by simp)
  rename_i sk hsk
  split at h
  · exact absurd h (by simp)
  rename_i prE hprE
  split at h
  · exact absurd h (by simp)
  rename_i exE hexE
  split at h
  · exact absurd h (by simp)
  rename_i edE hedE
  simp only [Except.ok.injEq] at h
  subst h
  obtain ⟨⟨n, t, rfl⟩, hp⟩ := cleanHeader_ok hH
  obtain ⟨a, b, c, e, f, rfl⟩ := cleanContact_ok hC
  refine ⟨?_, hp⟩
  simp only [conformantB, Bool.and_eq_true]
  exact ⟨⟨⟨⟨⟨rfl, rfl⟩, cleanSkills_shape _ _ hsk⟩, cleanProjects_shape _⟩,
         cleanExperience_shape _⟩, cleanEducation_shape _⟩

set_option maxHeartbeats 1000000 in
/-- A document passing the `conformantB` shape check is a fixed point of
`_validate_and_clean`, for any dictionary profile. -/
theorem idem_of_conformant {out : PyVal} (hc : conformantB out = true)
    (pkvs : List (String × PyVal)) :
    validate_and_clean out (.dict pkvs) = .ok out := by
  unfold conformantB at hc
  split at hc
  · rename_i hd ct s sk pr ex ed
    simp only [Bool.and_eq_true] at hc
    obtain ⟨⟨⟨⟨⟨hhd, hct⟩, hsk⟩, hpr⟩, hex⟩, hed⟩ := hc
    obtain ⟨hn, ht, rfl⟩ := headerShapeB_inv hhd
    obtain ⟨cp, ce, ca, cw, cl, rfl⟩ := contactShapeB_inv hct
    have key : validate_and_clean
        (.dict [("header", .dict [("name", hn), ("title", ht)]),
                ("contact", .dict [("phone", cp), ("email", ce), ("address", ca),
                                   ("website", cw), ("linkedin", cl)]),
                ("summary", s),
                ("skills", .list sk),
                ("projects", .list pr),
                ("experience", .list ex),
                ("education", .list ed)]) (.dict pkvs) =
        Except.bind (cleanSkills sk) (fun skills =>
          Except.ok (.dict
            [("header", .dict [("name", hn), ("title", ht)]),
             ("contact", .dict [("phone", cp), ("email", ce), ("address", ca),
                                ("website", cw), ("linkedin", cl)]),
             ("summary", s),
             ("skills", .list skills),
             ("projects", .list (cleanProjects pr)),
             ("experience", .list (cleanExperience ex)),
             ("education", .list (cleanEducation ed))])) := rfl
    rw [key, cleanSkills_id sk hsk]
    simp only [cleanProjects_id pr hpr, cleanExperience_id ex hex,
               cleanEducation_id ed hed]
    rfl
  · exact absurd hc (by simp)

end ResumeAgent

/-- C1, counterexample: `_validate_and_clean` is not total. On the mapping
`{"skills": [{"name": "Python", "level": "not a number"}]}` (with an empty
profile) the `int(skill.get("level", 50))` call raises `ValueError`, so the
function raises instead of returning a document. -/
theorem C1_counterexample :
    ResumeAgent.validate_and_clean
      (.dict [("skills", .list
        [.dict [("name", .str "Python"), ("level", .str "not a number")]])])
      (.dict []) = .error ("ValueError") := rfl

/-- C1, amended: `_validate_and_clean` can raise on wrong-typed nested
values, but whenever it does return, the returned document has all seven
top-level fields present with the canonical shapes (`conformantB`):
header/contact dictionaries with the canonical keys, the four section
fields lists of canonical-key entries, every skill level an integer and
every education year a string. -/
theorem C1_conformant_when_ok (data profile out : PyVal)
    (h : ResumeAgent.validate_and_clean data profile = .ok out) :
    ResumeAgent.conformantB out = true :=
  (ResumeAgent.ok_conformant h).1

/-- C1, witness: on the empty mapping and empty profile, normalization
returns the all-defaults document, and that document is conformant. -/
theorem C1_witness :
    ResumeAgent.validate_and_clean (.dict []) (.dict [])
        = .ok (cleanedDoc [] [] [] []) ∧
    ResumeAgent.conformantB (cleanedDoc [] [] [] []) = true :=
  ⟨rfl, C1_conformant_when_ok (.dict []) (.dict []) (cleanedDoc [] [] [] []) rfl⟩

/-- C2: the code does not clamp skill levels. Raw levels `-5` and `150`
pass through `int()` unchanged (the claim expects `0` and `100`), `50`
stays `50`, and the raw level `"not a number"` raises `ValueError` (the
claim expects a default of `50`). -/
theorem C2_levels_not_clamped :
    (ResumeAgent.validate_and_clean
      (.dict [("skills", .list
        [.dict [("name", .str "A"), ("level", .int (-5))],
         .dict [("name", .str "B"), ("level", .int 150)],
         .dict [("name", .str "C"), ("level", .int 50)]])])
      (.dict [])
      = .ok (cleanedDoc
          [.dict [("name", .str "A"), ("level", .int (-5))],
           .dict [("name", .str "B"), ("level", .int 150)],
           .dict [("name", .str "C"), ("level", .int 50)]] [] [] [])) ∧
    ResumeAgent.validate_and_clean
      (.dict [("skills", .list
        [.dict [("name", .str "D"), ("level", .str "not a number")]])])
      (.dict []) = .error ("ValueError") :=
  ⟨rfl, rfl⟩

/-- C5, counterexample: a bare empty-string skill entry is NOT dropped; it
is kept as `{name: "", level: 70}`, so the normalized skills list has one
entry where the claim says it has none. -/
theorem C5_counterexample :
    ResumeAgent.validate_and_clean (.dict [("skills", .list [.str ""])]) (.dict [])
      = .ok (cleanedDoc [.dict [("name", .str ""), ("level", .int 70)]] [] [] []) := rfl

/-- C5, amended: the skills loop keeps empty-name entries. A bare string
`s` (empty or not) becomes `{name: s, level: 70}`; a structured entry with
no `name` key is kept with `name = ""`; only entries that are neither
mappings nor strings are dropped. -/
theorem C5_amended (s : String) (lvl : Int) :
    (ResumeAgent.validate_and_clean (.dict [("skills", .list [.str s])]) (.dict [])
      = .ok (cleanedDoc [.dict [("name", .str s), ("level", .int 70)]] [] [] [])) ∧
    (ResumeAgent.validate_and_clean
      (.dict [("skills", .list [.dict [("level", .int lvl)]])]) (.dict [])
      = .ok (cleanedDoc [.dict [("name", .str ""), ("level", .int lvl)]] [] [] [])) ∧
    ResumeAgent.validate_and_clean
      (.dict [("skills", .list [.int 3, .none, .bool true, .list []])]) (.dict [])
      = .ok (cleanedDoc [] [] [] []) :=
  ⟨rfl, rfl, rfl⟩

/-- C6: normalization is idempotent. If `_validate_and_clean(raw, p)`
returns a document, running `_validate_and_clean` again on that document
with the same profile returns it unchanged. -/
theorem C6_idempotent (raw profile out : PyVal)
    (h : ResumeAgent.validate_and_clean raw profile = .ok out) :
    ResumeAgent.validate_and_clean out profile = .ok out := by
  obtain ⟨hc, pkvs, rfl⟩ := ResumeAgent.ok_conformant h
  exact ResumeAgent.idem_of_conformant hc pkvs

/-- C6, witness: the cleaned document obtained from the empty mapping
round-trips through normalization unchanged. -/
theorem C6_witness :
    ResumeAgent.validate_and_clean (cleanedDoc [] [] [] []) (.dict [])
      = .ok (cleanedDoc [] [] [] []) :=
  C6_idempotent (.dict []) (.dict []) (cleanedDoc [] [] [] []) rfl

/-- C9, counterexample: there is no `gpa` alias in the education cleaning
of `_validate_and_clean`. An entry `{"degree": "B.Tech", "gpa": "3.9"}`
normalizes with `details = ""`, not `"3.9"` as the claim states. -/
theorem C9_counterexample :
    ResumeAgent.validate_and_clean
      (.dict [("education", .list [.dict [("degree", .str "B.Tech"), ("gpa", .str "3.9")]])])
      (.dict [])
      = .ok (cleanedDoc [] [] []
          [.dict [("degree", .str "B.Tech"), ("institution", .str ""),
                  ("year", .str ""), ("details", .str "")]]) := rfl

/-- C9, amended: education entries extract `year` coerced with `str(...)`
(numeric input becomes its decimal string, a present string is unchanged,
missing input becomes `""`), and `details` from the canonical key alone,
defaulting to `""`; a `gpa` key is ignored. -/
theorem C9_amended (dg g y : String) (n : Int) :
    (ResumeAgent.validate_and_clean
      (.dict [("education", .list [.dict [("degree", .str dg), ("gpa", .str g)]])])
      (.dict [])
      = .ok (cleanedDoc [] [] []
          [.dict [("degree", .str dg), ("institution", .str ""),
                  ("year", .str ""), ("details", .str "")]])) ∧
    (ResumeAgent.validate_and_clean
      (.dict [("education", .list [.dict [("year", .int n)]])]) (.dict [])
      = .ok (cleanedDoc [] [] []
          [.dict [("degree", .str ""), ("institution", .str ""),
                  ("year", .str (toString n)), ("details", .str "")]])) ∧
    ResumeAgent.validate_and_clean
      (.dict [("education", .list [.dict [("year", .str y)]])]) (.dict [])
      = .ok (cleanedDoc [] [] []
          [.dict [("degree", .str ""), ("institution", .str ""),
                  ("year", .str y), ("details", .str "")]]) :=
  ⟨rfl, rfl, rfl⟩

theorem isPrefB_self_append (n t : List Char) : isPrefB n (n ++ t) = true := by
  induction n with
  | nil => rfl
  | cons a as ih => simp [isPrefB, ih]

theorem infixB_here (n t : List Char) : infixB n (n ++ t) = true := by
  cases n with
  | nil => cases t with
    | nil => rfl
    | cons h t' => simp [infixB, isPrefB]
  | cons a as =>
    simp only [infixB, Bool.or_eq_true]
    exact Or.inl (isPrefB_self_append (a :: as) t)

theorem infixB_mono_left (n pre t : List Char) (h : infixB n t = true) :
    infixB n (pre ++ t) = true := by
  induction pre with
  | nil => exact h
  | cons a as ih => simp [infixB, ih]

theorem isPrefB_mono (n : List Char) : ∀ (s t : List Char),
    isPrefB n s = true → isPrefB n (s ++ t) = true := by
  induction n with
  | nil => intro s t h; rfl
  | cons a as ih =>
    intro s t h
    cases s with
    | nil => simp [isPrefB] at h
    | cons b bs =>
      simp only [isPrefB, Bool.and_eq_true] at h ⊢
      exact ⟨h.1, ih bs t h.2⟩

theorem infixB_mono_right (n : List Char) : ∀ (s t : List Char),
    infixB n s = true → infixB n (s ++ t) = true := by
  intro s
  induction s with
  | nil =>
    intro t h
    simp only [infixB, List.isEmpty_iff] at h
    subst h
    cases t with
    | nil => rfl
    | cons c cs => simp [infixB, isPrefB]
  | cons a s' ih =>
    intro t h
    simp only [infixB, Bool.or_eq_true] at h ⊢
    rcases h with hp | hi
    · exact Or.inl (isPrefB_mono n (a :: s') t hp)
    · exact Or.inr (ih t hi)

theorem infixB_of_eq_append {n hay : List Char} (pre post : List Char)
    (h : hay = pre ++ (n ++ post)) : infixB n hay = true := by
  subst h
  exact infixB_mono_left n pre (n ++ post) (infixB_here n post)

namespace HTMLPDFGenerator

theorem flatD_append (xs ys : List Item) : flatD (xs ++ ys) = flatD xs ++ flatD ys := by
  induction xs with
  | nil => rfl
  | cons i xs ih =>
    show (Item.text i).data ++ flatD (xs ++ ys) = ((Item.text i).data ++ flatD xs) ++ flatD ys
    rw [ih, List.append_assoc]

theorem infixB_flat_of_mem (n : List Char) (i : Item) {items : List Item}
    (hmem : i ∈ items) (hin : infixB n (Item.text i).data = true) :
    infixB n (flatD items) = true := by
  induction items with
  | nil => cases hmem
  | cons j rest ih =>
    rcases List.mem_cons.mp hmem with rfl | hm
    · exact infixB_mono_right n (Item.text i).data (flatD rest) hin
    · exact infixB_mono_left n (Item.text j).data (flatD rest) (ih hm)

theorem countP_zero_of_clean {n : String} {items chunks : List Item}
    (hmem : ∀ i ∈ items, (∃ s, i = Item.dat s) ∨ i ∈ chunks)
    (hclean : chunks.all (fun i => !(hitB n i)) = true) :
    List.countP (hitB n) items = 0 := by
  refine List.countP_eq_zero.mpr ?_
  intro i hi
  rcases hmem i hi with ⟨s, rfl⟩ | hc
  · simp [hitB]
  · have h2 := List.all_eq_true.mp hclean i hc
    simp only [Bool.not_eq_true'] at h2
    simp [h2]

theorem mem_contactRow {i : Item} {lab val : String} (h : i ∈ contactRow lab val) :
    (∃ s, i = Item.dat s) ∨ i = .tpl (contactRowPre lab) ∨ i = .tpl contactRowPost := by
  unfold contactRow at h
  split at h
  · cases h
  · simp only [List.mem_cons, List.not_mem_nil, or_false] at h
    rcases h with rfl | rfl | rfl
    · exact Or.inr (Or.inl rfl)
    · exact Or.inl ⟨val, rfl⟩
    · exact Or.inr (Or.inr rfl)

theorem mem_contactItems {i : Item} {c : Contact} (h : i ∈ contactItems c) :
    (∃ s, i = Item.dat s) ∨ i ∈ contactChunks := by
  unfold contactItems at h
  simp only [List.mem_append, List.mem_singleton] at h
  rcases h with ((((h | h) | h) | h) | h) | rfl
  all_goals try
    (rcases mem_contactRow h with hd | rfl | rfl
     · exact Or.inl hd
     · simp [contactChunks]
     · simp [contactChunks])
  simp [contactChunks]

theorem mem_summaryItems {i : Item} {s : String} (h : i ∈ summaryItems s) :
    (∃ u, i = Item.dat u) ∨ i ∈ summaryChunks := by
  unfold summaryItems at h
  split at h
  · cases h
  · simp only [List.mem_cons, List.not_mem_nil, or_false] at h
    rcases h with rfl | rfl | rfl
    all_goals first | exact Or.inl ⟨_, rfl⟩ | simp [summaryChunks]

theorem mem_eduItem {i : Item} {e : Education} (h : i ∈ eduItem e) :
    (∃ s, i = Item.dat s) ∨ i ∈ eduSecChunks := by
  unfold eduItem at h
  rcases List.mem_append.mp h with hAB | hB
  · rcases List.mem_append.mp hAB with hA | hX
    · simp only [List.mem_cons, List.not_mem_nil, or_false] at hA
      rcases hA with rfl | rfl | rfl | rfl | rfl
      all_goals first | exact Or.inl ⟨_, rfl⟩ | simp [eduSecChunks]
    · by_cases hd : e.details = ""
      · rw [if_pos hd] at hX
        cases hX
      · rw [if_neg hd] at hX
        simp only [List.mem_cons, List.not_mem_nil, or_false] at hX
        rcases hX with rfl | rfl | rfl
        all_goals first | exact Or.inl ⟨_, rfl⟩ | simp [eduSecChunks]
  · simp only [List.mem_cons, List.not_mem_nil, or_false] at hB
    rcases hB with rfl | rfl | rfl
    all_goals first | exact Or.inl ⟨_, rfl⟩ | simp [eduSecChunks]

theorem mem_educationItems {i : Item} {es : List Education} (h : i ∈ educationItems es) :
    (∃ s, i = Item.dat s) ∨ i ∈ eduSecChunks := by
  unfold educationItems at h
  split at h
  · cases h
  · simp only [List.mem_append, List.mem_singleton] at h
    rcases h with (rfl | h) | rfl
    · simp [eduSecChunks]
    · rcases List.mem_flatMap.mp h with ⟨e, he, hi⟩
      exact mem_eduItem hi
    · simp [eduSecChunks]

theorem mem_skillItem {i : Item} {s : Skill} (h : i ∈ skillItem s) :
    (∃ u, i = Item.dat u) ∨ i ∈ skillSecChunks := by
  unfold skillItem at h
  simp only [List.mem_cons, List.not_mem_nil, or_false] at h
  rcases h with rfl | rfl | rfl | rfl | rfl | rfl | rfl
  all_goals first | exact Or.inl ⟨_, rfl⟩ | simp [skillSecChunks]

theorem mem_skillsItems {i : Item} {ss : List Skill} (h : i ∈ skillsItems ss) :
    (∃ u, i = Item.dat u) ∨ i ∈ skillSecChunks := by
  unfold skillsItems at h
  split at h
  · cases h
  · simp only [List.mem_append, List.mem_singleton] at h
    rcases h with (rfl | h) | rfl
    · simp [skillSecChunks]
    · rcases List.mem_flatMap.mp h with ⟨s, hs, hi⟩
      exact mem_skillItem hi
    · simp [skillSecChunks]

theorem mem_bullets {i : Item} {pts : List String}
    (h : i ∈ pts.flatMap (fun pt => [Item.tpl liOpen, Item.dat pt, Item.tpl liClose])) :
    (∃ u, i = Item.dat u) ∨ i = .tpl liOpen ∨ i = .tpl liClose := by
  rcases List.mem_flatMap.mp h with ⟨pt, hpt, hi⟩
  simp only [List.mem_cons, List.not_mem_nil, or_false] at hi
  rcases hi with rfl | rfl | rfl
  · exact Or.inr (Or.inl rfl)
  · exact Or.inl ⟨pt, rfl⟩
  · exact Or.inr (Or.inr rfl)

theorem mem_expItem {i : Item} {e : Experience} (h : i ∈ expItem e) :
    (∃ s, i = Item.dat s) ∨ i ∈ expSecChunks := by
  unfold expItem at h
  rcases List.mem_append.mp h with hABCP | hE
  rotate_left
  · simp only [List.mem_singleton] at hE
    subst hE
    simp [expSecChunks]
  rcases List.mem_append.mp hABCP with hABC | hP
  rotate_left
  · by_cases hp : e.points.isEmpty
    · rw [if_pos hp] at hP
      cases hP
    · rw [if_neg hp] at hP
      simp only [List.mem_append, List.mem_singleton] at hP
      rcases hP with (rfl | hP) | rfl
      · simp [expSecChunks]
      · rcases mem_bullets hP with hd | rfl | rfl
        · exact Or.inl hd
        · simp [expSecChunks]
        · simp [expSecChunks]
      · simp [expSecChunks]
  rcases List.mem_append.mp hABC with hAB | hC
  rotate_left
  · simp only [List.mem_singleton] at hC
    subst hC
    simp [expSecChunks]
  rcases List.mem_append.mp hAB with hA | hL
  · simp only [List.mem_cons, List.not_mem_nil, or_false] at hA
    rcases hA with rfl | rfl | rfl | rfl | rfl | rfl
    all_goals first | exact Or.inl ⟨_, rfl⟩ | simp [expSecChunks]
  · by_cases hl : e.location = ""
    · rw [if_pos hl] at hL
      cases hL
    · rw [if_neg hl] at hL
      simp only [List.mem_cons, List.not_mem_nil, or_false] at hL
      rcases hL with rfl | rfl
      all_goals first | exact Or.inl ⟨_, rfl⟩ | simp [expSecChunks]

theorem mem_experienceItems {i : Item} {es : List Experience} (h : i ∈ experienceItems es) :
    (∃ s, i = Item.dat s) ∨ i ∈ expSecChunks := by
  unfold experienceItems at h
  split at h
  · cases h
  · simp only [List.mem_append, List.mem_singleton] at h
    rcases h with (rfl | h) | rfl
    · simp [expSecChunks]
    · rcases List.mem_flatMap.mp h with ⟨e, he, hi⟩
      exact mem_expItem hi
    · simp [expSecChunks]

theorem mem_projItem {i : Item} {p : Project} (h : i ∈ projItem p) :
    (∃ s, i = Item.dat s) ∨ i ∈ projItemChunks := by
  unfold projItem at h
  rcases List.mem_append.mp h with hATP | hE
  rotate_left
  · simp only [List.mem_singleton] at hE
    subst hE
    simp [projItemChunks]
  rcases List.mem_append.mp hATP with hAT | hP
  rotate_left
  · by_cases hp : p.points.isEmpty
    · rw [if_pos hp] at hP
      cases hP
    · rw [if_neg hp] at hP
      simp only [List.mem_append, List.mem_singleton] at hP
      rcases hP with (rfl | hP) | rfl
      · simp [projItemChunks]
      · rcases mem_bullets hP with hd | rfl | rfl
        · exact Or.inl hd
        · simp [projItemChunks]
        · simp [projItemChunks]
      · simp [projItemChunks]
  rcases List.mem_append.mp hAT with hA | hT
  · simp only [List.mem_cons, List.not_mem_nil, or_false] at hA
    rcases hA with rfl | rfl | rfl
    all_goals first | exact Or.inl ⟨_, rfl⟩ | simp [projItemChunks]
  · by_cases ht : p.tech_stack.isEmpty
    · rw [if_pos ht] at hT
      cases hT
    · rw [if_neg ht] at hT
      simp only [List.mem_cons, List.not_mem_nil, or_false] at hT
      rcases hT with rfl | rfl | rfl
      all_goals first | exact Or.inl ⟨_, rfl⟩ | simp [projItemChunks]

theorem mem_projectsItems {i : Item} {ps : List Project} (h : i ∈ projectsItems ps) :
    (∃ s, i = Item.dat s) ∨ i ∈ projSecChunks := by
  unfold projectsItems at h
  split at h
  · cases h
  · simp only [List.mem_append, List.mem_singleton] at h
    rcases h with (rfl | h) | rfl
    · simp [projSecChunks]
    · rcases List.mem_flatMap.mp h with ⟨p, hp, hi⟩
      rcases mem_projItem hi with hd | hc
      · exact Or.inl hd
      · exact Or.inr (List.mem_cons_of_mem _ (List.mem_cons_of_mem _ hc))
    · simp [projSecChunks]

theorem countP_bullets_zero (n : String) (h1 : infixB n.data liOpen.data = false)
    (h2 : infixB n.data liClose.data = false) (pts : List String) :
    List.countP (hitB n)
      (pts.flatMap (fun pt => [Item.tpl liOpen, Item.dat pt, Item.tpl liClose])) = 0 := by
  induction pts with
  | nil => rfl
  | cons pt pts ih =>
    rw [List.flatMap_cons, List.countP_append _ _ _, ih]
    simp [List.countP_cons, hitB, h1, h2]

theorem countP_projItem_zero_header (p : Project) :
    List.countP (hitB projHeaderN) (projItem p) = 0 :=
  countP_zero_of_clean (fun _ hi => mem_projItem hi) (by rfl)

theorem countP_projItem_one_block (p : Project) :
    List.countP (hitB projBlockN) (projItem p) = 1 := by
  unfold projItem
  simp only [List.countP_append]
  have hT : List.countP (hitB projBlockN)
      (if p.tech_stack.isEmpty then ([] : List Item) else
        [Item.tpl projTechPre, Item.dat (String.intercalate (", ") p.tech_stack),
         Item.tpl projTechPost]) = 0 := by
    split
    · rfl
    · rfl
  have hP : List.countP (hitB projBlockN)
      (if p.points.isEmpty then ([] : List Item) else
        [Item.tpl projPointsOpen] ++
        p.points.flatMap (fun pt => [Item.tpl liOpen, Item.dat pt, Item.tpl liClose]) ++
        [Item.tpl projPointsClose]) = 0 := by
    split
    · rfl
    · rw [List.countP_append _ _ _, List.countP_append _ _ _,
          countP_bullets_zero projBlockN rfl rfl]
      rfl
  rw [hT, hP]
  rfl

theorem countP_projectsItems_single (p : Project) :
    List.countP (hitB projHeaderN) (projectsItems [p]) = 1 ∧
    List.countP (hitB projBlockN) (projectsItems [p]) = 1 := by
  constructor <;>
  · show List.countP _
      ([Item.tpl projOpen] ++ ([p] : List Project).flatMap projItem ++ [Item.tpl sectionClose]) = 1
    rw [show ([p] : List Project).flatMap projItem = projItem p by simp]
    rw [List.countP_append _ _ _, List.countP_append _ _ _]
    first
    | rw [countP_projItem_zero_header p]; rfl
    | rw [countP_projItem_one_block p]; rfl

set_option maxRecDepth 200000 in
set_option maxHeartbeats 2000000 in
/-- C7, amended: the omission rule, stated of what the template itself emits
(`tplCount` counts template-authored pieces containing the given markup;
document fields are inserted verbatim without escaping, so they can
introduce such markup themselves — see the counterexample). With an empty
`projects` list the template emits no Projects section header; with exactly
one project entry it emits exactly one Projects header and exactly one
project block; an empty `experience`/`education`/`skills` list or an empty
`summary` likewise suppresses the header of that section. -/
theorem C7_section_omission (r : Resume) :
    (r.projects = [] → tplCount projHeaderN (renderItems r) = 0) ∧
    (∀ p, r.projects = [p] → tplCount projHeaderN (renderItems r) = 1 ∧
        tplCount projBlockN (renderItems r) = 1) ∧
    (r.experience = [] → tplCount expHeaderN (renderItems r) = 0) ∧
    (r.education = [] → tplCount eduHeaderN (renderItems r) = 0) ∧
    (r.skills = [] → tplCount skillsHeaderN (renderItems r) = 0) ∧
    (r.summary = "" → tplCount summaryHeaderN (renderItems r) = 0) := by
  refine ⟨?_, ?_, ?_, ?_, ?_, ?_⟩
  · intro hp
    unfold tplCount renderItems
    rw [hp]
    simp only [List.countP_append]
    rw [countP_zero_of_clean (fun _ hi => mem_contactItems hi) (by rfl),
        countP_zero_of_clean (fun _ hi => mem_summaryItems hi) (by rfl),
        countP_zero_of_clean (fun _ hi => mem_educationItems hi) (by rfl),
        countP_zero_of_clean (fun _ hi => mem_skillsItems hi) (by rfl),
        countP_zero_of_clean (fun _ hi => mem_experienceItems hi) (by rfl)]
    rfl
  · refine fun p hp => ⟨?_, ?_⟩
    · unfold tplCount renderItems
      rw [hp]
      simp only [List.countP_append]
      rw [countP_zero_of_clean (fun _ hi => mem_contactItems hi) (by rfl),
          countP_zero_of_clean (fun _ hi => mem_summaryItems hi) (by rfl),
          countP_zero_of_clean (fun _ hi => mem_educationItems hi) (by rfl),
          countP_zero_of_clean (fun _ hi => mem_skillsItems hi) (by rfl),
          countP_zero_of_clean (fun _ hi => mem_experienceItems hi) (by rfl),
          (countP_projectsItems_single p).1]
      rfl
    · unfold tplCount renderItems
      rw [hp]
      simp only [List.countP_append]
      rw [countP_zero_of_clean (fun _ hi => mem_contactItems hi) (by rfl),
          countP_zero_of_clean (fun _ hi => mem_summaryItems hi) (by rfl),
          countP_zero_of_clean (fun _ hi => mem_educationItems hi) (by rfl),
          countP_zero_of_clean (fun _ hi => mem_skillsItems hi) (by rfl),
          countP_zero_of_clean (fun _ hi => mem_experienceItems hi) (by rfl),
          (countP_projectsItems_single p).2]
      rfl
  · intro hx
    unfold tplCount renderItems
    rw [hx]
    simp only [List.countP_append]
    rw [countP_zero_of_clean (fun _ hi => mem_contactItems hi) (by rfl),
        countP_zero_of_clean (fun _ hi => mem_summaryItems hi) (by rfl),
        countP_zero_of_clean (fun _ hi => mem_educationItems hi) (by rfl),
        countP_zero_of_clean (fun _ hi => mem_skillsItems hi) (by rfl),
        countP_zero_of_clean (fun _ hi => mem_projectsItems hi) (by rfl)]
    rfl
  · intro he
    unfold tplCount renderItems
    rw [he]
    simp only [List.countP_append]
    rw [countP_zero_of_clean (fun _ hi => mem_contactItems hi) (by rfl),
        countP_zero_of_clean (fun _ hi => mem_summaryItems hi) (by rfl),
        countP_zero_of_clean (fun _ hi => mem_skillsItems hi) (by rfl),
        countP_zero_of_clean (fun _ hi => mem_experienceItems hi) (by rfl),
        countP_zero_of_clean (fun _ hi => mem_projectsItems hi) (by rfl)]
    rfl
  · intro hk
    unfold tplCount renderItems
    rw [hk]
    simp only [List.countP_append]
    rw [countP_zero_of_clean (fun _ hi => mem_contactItems hi) (by rfl),
        countP_zero_of_clean (fun _ hi => mem_summaryItems hi) (by rfl),
        countP_zero_of_clean (fun _ hi => mem_educationItems hi) (by rfl),
        countP_zero_of_clean (fun _ hi => mem_experienceItems hi) (by rfl),
        countP_zero_of_clean (fun _ hi => mem_projectsItems hi) (by rfl)]
    rfl
  · intro hs
    unfold tplCount renderItems
    rw [hs]
    simp only [List.countP_append]
    rw [countP_zero_of_clean (fun _ hi => mem_contactItems hi) (by rfl),
        countP_zero_of_clean (fun _ hi => mem_educationItems hi) (by rfl),
        countP_zero_of_clean (fun _ hi => mem_skillsItems hi) (by rfl),
        countP_zero_of_clean (fun _ hi => mem_experienceItems hi) (by rfl),
        countP_zero_of_clean (fun _ hi => mem_projectsItems hi) (by rfl)]
    rfl

set_option maxRecDepth 200000 in
set_option maxHeartbeats 2000000 in
/-- C7, counterexample: the claim as stated fails, because the renderer
does not HTML-escape document text. `injResume` has an empty `projects`
list, yet its rendered output contains the Projects section header — the
header markup arrives verbatim through the `summary` field. -/
theorem C7_counterexample :
    injResume.projects = [] ∧
    infixOf projHeaderN (generate_html_preview injResume) := by
  refine ⟨rfl, ?_⟩
  show infixB projHeaderN.data (flatD (renderItems injResume)) = true
  refine infixB_flat_of_mem projHeaderN.data (Item.dat projHeaderN) ?_ ?_
  · simp [renderItems, injResume, summaryItems, projHeaderN, contactItems, contactRow]
  · have h := infixB_here projHeaderN.data []
    rwa [List.append_nil] at h

set_option maxRecDepth 200000 in
set_option maxHeartbeats 2000000 in
/-- C7, witness: the all-empty document renders with no Projects header,
and a document with exactly one project renders exactly one project
block. -/
theorem C7_witness :
    tplCount projHeaderN (renderItems emptyResume) = 0 ∧
    tplCount projBlockN (renderItems oneProjResume) = 1 :=
  ⟨(C7_section_omission emptyResume).1 rfl,
   ((C7_section_omission oneProjResume).2.1 ⟨"Chess engine", [], []⟩ rfl).2⟩

/-- C8: for every conformant document and every skill in it, the rendered
output contains the filled-bar width attribute `style="width: L%;"` where
`L` is exactly the level of that skill. -/
theorem C8_skill_bar_width (r : Resume) (s : Skill) (hs : s ∈ r.skills) :
    infixOf (widthAttrN s.level) (generate_html_preview r) := by
  obtain ⟨l1, l2, heq⟩ := List.append_of_mem hs
  show infixB (widthAttrN s.level).data (flatD (renderItems r)) = true
  unfold renderItems
  repeat rw [flatD_append]
  apply infixB_mono_right
  apply infixB_mono_right
  apply infixB_mono_right
  apply infixB_mono_right
  apply infixB_mono_right
  apply infixB_mono_left
  rw [heq]
  unfold skillsItems
  rw [if_neg (by simp : ¬((l1 ++ s :: l2).isEmpty = true))]
  repeat rw [flatD_append]
  apply infixB_mono_right
  apply infixB_mono_left
  rw [List.flatMap_append, List.flatMap_cons]
  repeat rw [flatD_append]
  apply infixB_mono_left
  apply infixB_mono_right
  refine infixB_of_eq_append
    (skillItemPre.data ++ (s.name.data ++ (skillNameToLevel.data ++
      ((toString s.level).data ++ skillFillLead.data))))
    (skillFillTail.data) ?_
  simp [flatD, skillItem, Item.text, skillLevelToFill, skillFillClose, widthAttrN,
        String.data_append, List.append_assoc]

set_option maxRecDepth 200000 in
set_option maxHeartbeats 2000000 in
/-- C8, witness: a document with one skill at level 37 renders a bar whose
width attribute is exactly 37 percent. -/
theorem C8_witness :
    infixOf (widthAttrN 37) (generate_html_preview skillResume) :=
  C8_skill_bar_width skillResume ⟨"Python", 37⟩ (List.mem_singleton.mpr rfl)

set_option maxRecDepth 200000 in
set_option maxHeartbeats 2000000 in
/-- C10: the Contact section header is rendered for every conformant
document — Contact is never omitted; additionally, when all five contact
fields are empty the template emits no contact row at all. -/
theorem C10_contact_always (r : Resume) :
    infixOf contactHeaderN (generate_html_preview r) ∧
    (r.contact.phone = "" → r.contact.email = "" → r.contact.address = "" →
     r.contact.website = "" → r.contact.linkedin = "" →
     tplCount contactItemN (renderItems r) = 0) := by
  constructor
  · show infixB contactHeaderN.data (flatD (renderItems r)) = true
    refine infixB_flat_of_mem contactHeaderN.data (Item.tpl chunkBandClose) ?_ (by rfl)
    simp [renderItems]
  · intro h1 h2 h3 h4 h5
    unfold tplCount renderItems
    simp only [List.countP_append]
    have hc : List.countP (hitB contactItemN) (contactItems r.contact) = 0 := by
      unfold contactItems contactRow
      rw [h1, h2, h3, h4, h5]
      rfl
    rw [hc,
        countP_zero_of_clean (fun _ hi => mem_summaryItems hi) (by rfl),
        countP_zero_of_clean (fun _ hi => mem_educationItems hi) (by rfl),
        countP_zero_of_clean (fun _ hi => mem_skillsItems hi) (by rfl),
        countP_zero_of_clean (fun _ hi => mem_experienceItems hi) (by rfl),
        countP_zero_of_clean (fun _ hi => mem_projectsItems hi) (by rfl)]
    rfl

set_option maxRecDepth 200000 in
set_option maxHeartbeats 2000000 in
/-- C10, witness: the all-empty document still renders the Contact header
and no contact rows. -/
theorem C10_witness :
    infixOf contactHeaderN (generate_html_preview emptyResume) ∧
    tplCount contactItemN (renderItems emptyResume) = 0 :=
  ⟨(C10_contact_always emptyResume).1,
   (C10_contact_always emptyResume).2 rfl rfl rfl rfl rfl⟩

/-- C4, counterexample: a document missing only `projects` is reported
VALID with no missing fields — `projects` is not among the checked
fields, contrary to the claim. -/
theorem C4_counterexample :
    hasKey sixFieldDoc ("projects") = false ∧
    validate_resume_data sixFieldDoc = ⟨true, [], "Valid resume data"⟩ :=
  ⟨rfl, rfl⟩

/-- C4, amended: `validate_resume_data` reports exactly the absent fields
among the six checked ones (header, contact, summary, skills, experience,
education); `projects` is never checked; `valid` is true exactly when no
checked field is missing. -/
theorem C4_amended (data : List (String × PyVal)) :
    (∀ f, f ∈ (validate_resume_data data).missing_fields ↔
        f ∈ requiredFields ∧ hasKey data f = false) ∧
    ((validate_resume_data data).valid = true ↔
        (validate_resume_data data).missing_fields = []) := by
  constructor
  · intro f
    simp [validate_resume_data, List.mem_filter]
  · simp [validate_resume_data, List.length_eq_zero]

/-- C4, witness: the empty document is invalid and `header` is reported
missing. -/
theorem C4_witness :
    ("header" ∈ (validate_resume_data []).missing_fields) ∧
    (validate_resume_data []).valid = false :=
  ⟨((C4_amended []).1 ("header")).mpr ⟨by simp [requiredFields], rfl⟩,
   by
    have h := (C4_amended []).2
    simp only [validate_resume_data] at h ⊢
    rfl⟩

/-- C3, counterexample: `generate_pdf_bytes` ignores the reported
error status. With a rasterizer reporting one error and a truncated
buffer, it returns the truncated bytes as its ordinary return value — no
failure is signalled on this path, contrary to the claim that every
rendering path either returns a complete stream as success or signals a
failure. -/
theorem C3_counterexample :
    (rasterFail (generate_html_preview emptyResume)).err = 1 ∧
    generate_pdf_bytes emptyResume rasterFail = [37, 80, 68, 70] :=
  ⟨rfl, rfl⟩

/-- C3, amended: `generate_pdf` does satisfy the claim — when the
rasterizer reports an error it returns a typed error result carrying the
diagnostic count and no file artifact, and on a clean run it returns
success with the file path; `generate_pdf_bytes`, however, returns the
destination buffer bytes unconditionally, whatever the error status. -/
theorem C3_amended (doc : Resume) (filename : Option String) (ts dir : String)
    (raster : String → RasterResult) :
    ((raster (generate_html_preview doc)).err ≠ 0 →
      generate_pdf doc filename ts dir raster =
        ⟨"error",
         "PDF generation had errors: " ++ toString (raster (generate_html_preview doc)).err,
         none, none⟩) ∧
    ((raster (generate_html_preview doc)).err = 0 →
      (generate_pdf doc filename ts dir raster).status = "success" ∧
      (generate_pdf doc filename ts dir raster).file_path ≠ none) ∧
    generate_pdf_bytes doc raster = (raster (generate_html_preview doc)).bytes := by
  refine ⟨fun h => ?_, fun h => ?_, rfl⟩
  · unfold generate_pdf
    rw [if_pos h]
  · unfold generate_pdf
    rw [if_neg (by simp [h])]
    exact ⟨rfl, by simp⟩

/-- C3, witness: with a failing rasterizer, `generate_pdf` returns the
typed error dictionary with the diagnostic and no artifact. -/
theorem C3_witness :
    generate_pdf emptyResume none ("20240101_000000") ("resumes") rasterFail =
      ⟨"error", "PDF generation had errors: 1", none, none⟩ :=
  (C3_amended emptyResume none ("20240101_000000") ("resumes") rasterFail).1
    (by decide)

end HTMLPDFGenerator
